import Mathlib

/-!
A verification development for the recipe server (src/server.ts): the
GET /recipes list endpoint with its redis cache-aside layer, the
mutation endpoints with their cache invalidation, and the by-id
endpoints. Handlers are embedded as pure functions over an explicit
redis keyspace and store contents; fallible collaborator calls
(redis.get, redis.set, redis.del, mongoose queries) are given explicit
failure flags matching the try/catch structure of the source.
-/

namespace GroceryServer

/-- An ingredient subdocument; the list query matches on its name field. -/
structure Ingredient where
  name : String
  deriving DecidableEq, Repr

/-- A recipe document, with the fields the list endpoint projects
(server.ts lines 124-133). -/
structure Recipe where
  title : String
  ingredients : List Ingredient
  utensils : List String
  totalTime : String
  difficulty : String
  instructions : List String
  deriving DecidableEq, Repr

/-- Tests whether the first character list is an initial run of the
second. -/
def leadsWith : List Char → List Char → Bool
  | [], _ => true
  | _ :: _, [] => false
  | a :: as, b :: bs => a == b && leadsWith as bs

/-- Tests whether the first character list occurs contiguously inside the
second. -/
def occursIn (pat : List Char) : List Char → Bool
  | [] => pat.isEmpty
  | c :: cs => leadsWith pat (c :: cs) || occursIn pat cs

/-- Lowercasing on the character-list view of a string: String.toLower
maps Char.toLower over the characters. -/
def lowerChars (cs : List Char) : List Char := cs.map Char.toLower

/-- Case-insensitive containment: models new RegExp(pat, i-flag).test(hay)
for a pattern free of regex metacharacters. The empty pattern matches
every string, as the empty regex does. -/
def ciContains (hay pat : String) : Bool :=
  occursIn (lowerChars pat.toList) (lowerChars hay.toList)

/-- The find filter built at server.ts lines 94-100: when difficulty is
nonempty it must match case-insensitively (spread of a conditional
object), and search must case-insensitively match the title or some
ingredient name (the or-array). -/
def matchesQuery (search difficulty : String) (r : Recipe) : Bool :=
  (difficulty == "" || ciContains r.difficulty difficulty) &&
    (ciContains r.title search || r.ingredients.any (fun i => ciContains i.name search))

/-- Lexicographic comparison of character lists by code point, the
binary collation the store applies to the ascending title sort. -/
def charListLe : List Char → List Char → Bool
  | [], _ => true
  | _ :: _, [] => false
  | a :: as, b :: bs =>
    if a.toNat < b.toNat then true
    else if b.toNat < a.toNat then false
    else charListLe as bs

/-- Ordering on recipes by title, the sort key of the pipeline. -/
def titleLe (a b : Recipe) : Prop := charListLe a.title.toList b.title.toList = true

instance : DecidableRel titleLe :=
  fun a b => inferInstanceAs (Decidable (charListLe a.title.toList b.title.toList = true))

instance : IsTotal Recipe titleLe := by
  constructor
  intro a b
  unfold titleLe
  generalize a.title.toList = x
  generalize b.title.toList = y
  induction x generalizing y with
  | nil => left; rfl
  | cons a as ih =>
    cases y with
    | nil => right; rfl
    | cons b bs =>
      by_cases h1 : a.toNat < b.toNat
      · left; simp [charListLe, h1]
      · by_cases h2 : b.toNat < a.toNat
        · right; simp [charListLe, h1, h2]
        · rcases ih bs with h | h
          · left; simp [charListLe, h1, h2, h]
          · right; simp [charListLe, h1, h2, h]

instance : IsTrans Recipe titleLe := by
  constructor
  intro a b c hab hbc
  unfold titleLe at hab hbc ⊢
  revert hab hbc
  generalize a.title.toList = x
  generalize b.title.toList = y
  generalize c.title.toList = z
  intro hxy hyz
  induction x generalizing y z with
  | nil => rfl
  | cons a as ih =>
    cases y with
    | nil => simp [charListLe] at hxy
    | cons b bs =>
      cases z with
      | nil => simp [charListLe] at hyz
      | cons c cs =>
        simp only [charListLe] at hxy hyz ⊢
        by_cases hab : a.toNat < b.toNat
        · by_cases hbc : b.toNat < c.toNat
          · have hac : a.toNat < c.toNat := lt_trans hab hbc
            simp [hac]
          · by_cases hcb : c.toNat < b.toNat
            · simp [hbc, hcb] at hyz
            · have hac : a.toNat < c.toNat := by omega
              simp [hac]
        · by_cases hba : b.toNat < a.toNat
          · simp [hab, hba] at hxy
          · by_cases hbc : b.toNat < c.toNat
            · have hac : a.toNat < c.toNat := by omega
              simp [hac]
            · by_cases hcb : c.toNat < b.toNat
              · simp [hbc, hcb] at hyz
              · have hac : ¬ a.toNat < c.toNat := by omega
                have hca : ¬ c.toNat < a.toNat := by omega
                simp [hab, hba] at hxy
                simp [hbc, hcb] at hyz
                simp [hac, hca]
                exact ih bs cs hxy hyz

/-- The sort stage of the pipeline: ascending by title. -/
def sortByTitle (l : List Recipe) : List Recipe := List.insertionSort titleLe l

/-- Accumulates a run of decimal digits; none when empty or when a
non-digit appears. -/
def parseDigits (cs : List Char) : Option Nat :=
  if cs.isEmpty then none
  else cs.foldl
    (fun acc c => match acc with
      | none => none
      | some n => if c.isDigit then some (n * 10 + (c.toNat - 48)) else none)
    (some 0)

/-- JS Number() applied to a query string, restricted to integral
values: some n when the string is an optionally signed run of decimal
digits denoting n, some 0 for the empty string (Number of the empty
string is 0), none when the conversion yields NaN. Fractional, exponent
and hex literals lie outside the model; no claim depends on them. -/
def jsNumber (s : String) : Option Int :=
  match s.toList with
  | [] => some 0
  | c :: cs =>
    if c = '-' then (parseDigits cs).map (fun n => -(n : Int))
    else if c = '+' then (parseDigits cs).map (fun n => (n : Int))
    else (parseDigits (c :: cs)).map (fun n => (n : Int))

/-- server.ts line 88: Math.min(Number(req.query.pageSize) or-else 10, 100).
NaN and 0 are falsy, so a missing, non-numeric or zero pageSize becomes
10; the result is capped above at 100 and nowhere clamped below. -/
def normPageSize (raw : Option String) : Int :=
  let n : Option Int := match raw with
    | none => none
    | some s => jsNumber s
  let d : Int := match n with
    | none => 10
    | some k => if k = 0 then 10 else k
  min d 100

/-- The JSON value held in currentPage: destructuring req.query with a
default of 1 yields either the raw query string or the number 1. -/
inductive JsonPage where
  | num (n : Int)
  | str (s : String)
  deriving DecidableEq, Repr

/-- Template-literal stringification of the page value. -/
def JsonPage.render : JsonPage → String
  | JsonPage.num n => toString n
  | JsonPage.str s => s

/-- server.ts line 87: the page binding, the raw string when supplied and
the number 1 otherwise. -/
def pageVal : Option String → JsonPage
  | none => JsonPage.num 1
  | some s => JsonPage.str s

/-- Number(page): the default 1 converts to 1; a supplied string goes
through Number(). -/
def numericPage : Option String → Option Int
  | none => some 1
  | some s => jsNumber s

/-- server.ts line 92: the cache key template literal, built from the raw
page value and the clamped pageSize. -/
def cacheKey (page : JsonPage) (pageSize : Int) (search difficulty : String) : String :=
  "recipes:page=" ++ page.render ++ "&pageSize=" ++ toString pageSize ++
    "&search=" ++ search ++ "&difficulty=" ++ difficulty

/-- The key a list request derives from its query parameters, with
defaults applied as in server.ts lines 87-92. -/
def keyOf (page psRaw search difficulty : Option String) : String :=
  cacheKey (pageVal page) (normPageSize psRaw) (search.getD "") (difficulty.getD "")

/-- The shaped page of results (server.ts line 144). -/
structure PageResult where
  recipes : List Recipe
  totalRecipes : Nat
  totalPages : Int
  currentPage : JsonPage
  deriving DecidableEq, Repr

/-- Math.ceil(t / p) for a nonnegative integral numerator and an integral
denominator: the exact rational ceiling, via ceil x = -floor (-x),
computed with floor division. -/
def mathCeilDiv (t : Nat) (p : Int) : Int := -(Int.fdiv (-(t : Int)) p)

/-- The result of the aggregation facet (server.ts lines 114-138). -/
structure AggregateResult where
  recipes : List Recipe
  totalCount : Nat
  deriving DecidableEq, Repr

/-- The aggregation pipeline at server.ts lines 114-138: match the
filter, then facet into recipes (sort by title, skip, limit, project the
modelled fields) and totalCount (count of all matches, ignoring skip and
limit; line 141 defaults the absent count document to 0). The store
rejects a negative or non-integral skip or limit, so theorems that
inspect page contents carry the corresponding hypotheses; the toNat
coercions are exercised only on nonnegative values. -/
def runAggregate (store : List Recipe) (search difficulty : String)
    (skip limit : Int) : AggregateResult :=
  let matched := store.filter (matchesQuery search difficulty)
  { recipes := ((sortByTitle matched).drop skip.toNat).take limit.toNat
    totalCount := matched.length }

/-- server.ts line 122: (Number(page) - 1) * pageSize. The none branch
stands for a NaN skip, which the store rejects; no theorem relies on
that branch. -/
def skipOf (page : Option String) (pageSize : Int) : Int :=
  match numericPage page with
  | some k => (k - 1) * pageSize
  | none => 0

/-- The PageResult shaped from a store read on a cache miss (server.ts
lines 140-144): totalPages is Math.ceil(totalRecipes / pageSize) and
currentPage echoes the raw page value. -/
def storePage (store : List Recipe) (page psRaw search difficulty : Option String) : PageResult :=
  let ps := normPageSize psRaw
  let agg := runAggregate store (search.getD "") (difficulty.getD "") (skipOf page ps) ps
  { recipes := agg.recipes
    totalRecipes := agg.totalCount
    totalPages := mathCeilDiv agg.totalCount ps
    currentPage := pageVal page }

/-- The redis keyspace, restricted to the keys this server touches. A
value is kept as the PageResult it deserializes to: JSON.stringify
followed by JSON.parse is the identity on this plain data, so the
serialized blob is modelled by the value itself (and the stringified
blob of an object is never the empty string, so the truthiness test on
line 106 coincides with presence). -/
abbrev RedisState := List (String × PageResult)

/-- redis.get: the binding for the key, none on a miss. -/
def redisGet (c : RedisState) (key : String) : Option PageResult := List.lookup key c

/-- redis.set with EX 3600: binds the key to the value. TTL expiry is not
modelled beyond the fact that eviction or expiry removes the binding. -/
def redisSet (c : RedisState) (key : String) (v : PageResult) : RedisState := (key, v) :: c

/-- redis.del: the DEL command removes exactly the keys named by its
arguments; it performs no pattern expansion. -/
def redisDel (c : RedisState) (key : String) : RedisState :=
  c.filter (fun e => !(e.1 == key))

/-- server.ts lines 38-44: clearRecipeCache issues DEL with the single
literal argument recipes:* and swallows any redis error. -/
def clearRecipeCache (delFails : Bool) (c : RedisState) : RedisState :=
  if delFails then c else redisDel c "recipes:*"

/-- An error body: the details field is present exactly when the handler
attached one. -/
structure ErrorBody where
  error : String
  details : Option String
  deriving DecidableEq, Repr

/-- A response body: a page of results, a single recipe, a message
object, or an error object. -/
inductive Body where
  | pageResult (p : PageResult)
  | recipe (r : Recipe)
  | message (m : String)
  | err (e : ErrorBody)
  deriving DecidableEq, Repr

/-- The outcome of a list request: status, body, the redis state after
the request, and whether the store was consulted. -/
structure ListOutcome where
  status : Nat
  body : Body
  cache : RedisState
  storeQueried : Bool
  deriving DecidableEq, Repr

/-- The GET /recipes handler (server.ts lines 86-159). readFails models
redis.get throwing (caught at lines 109-111: fall through to the store);
writeFails models redis.set throwing (caught at lines 147-149: logged,
response unaffected); storeFails models the aggregate throwing (caught
at lines 152-158: a 500 carrying error and details). -/
def getRecipes (store : List Recipe) (cache : RedisState)
    (readFails writeFails storeFails : Bool) (storeErrMsg : String)
    (page psRaw search difficulty : Option String) : ListOutcome :=
  let key := keyOf page psRaw search difficulty
  let cached : Option PageResult := if readFails then none else redisGet cache key
  match cached with
  | some v => ⟨200, Body.pageResult v, cache, false⟩
  | none =>
    if storeFails then
      ⟨500, Body.err ⟨"Failed to fetch recipes", some storeErrMsg⟩, cache, true⟩
    else
      let value := storePage store page psRaw search difficulty
      let cache2 := if writeFails then cache else redisSet cache key value
      ⟨200, Body.pageResult value, cache2, true⟩

/-- The outcome of POST /recipes: status, body, store contents after the
request, redis state after the request, and whether clearRecipeCache was
invoked. -/
structure CreateOutcome where
  status : Nat
  body : Body
  store : List Recipe
  cache : RedisState
  clearCalled : Bool
  deriving DecidableEq, Repr

/-- The POST /recipes handler (server.ts lines 70-83): on a successful
save the new document is added and clearRecipeCache runs before the 201;
a save failure yields a 400 carrying error and details and touches
neither store nor cache. -/
def postRecipe (store : List Recipe) (cache : RedisState)
    (saveFails delFails : Bool) (errMsg : String) (body : Recipe) : CreateOutcome :=
  if saveFails then
    ⟨400, Body.err ⟨"Failed to create recipe", some errMsg⟩, store, cache, false⟩
  else
    ⟨201, Body.recipe body, store ++ [body], clearRecipeCache delFails cache, true⟩

/-- The store keyed by document id, for the by-id endpoints. -/
abbrev RecipeDB := List (String × Recipe)

/-- The outcome of a by-id mutation: status, body, the db and redis
state after the request, and whether clearRecipeCache was invoked. -/
structure IdOutcome where
  status : Nat
  body : Body
  db : RecipeDB
  cache : RedisState
  clearCalled : Bool
  deriving DecidableEq, Repr

/-- The PUT /recipes/:id handler (server.ts lines 185-203).
findByIdAndUpdate with the new-document option is modelled as replacing
the bound document by the request body and returning it; when the id is
absent it returns null, giving a 404 that carries no details and leaves
db and cache untouched. updateFails models the call throwing (caught at
lines 196-202: a 400 carrying error and details). -/
def putRecipe (db : RecipeDB) (cache : RedisState)
    (updateFails delFails : Bool) (errMsg : String)
    (id : String) (body : Recipe) : IdOutcome :=
  if updateFails then
    ⟨400, Body.err ⟨"Failed to update recipe", some errMsg⟩, db, cache, false⟩
  else
    match List.lookup id db with
    | none => ⟨404, Body.err ⟨"Recipe not found", none⟩, db, cache, false⟩
    | some _ =>
      ⟨200, Body.recipe body,
        db.map (fun e => if e.1 == id then (e.1, body) else e),
        clearRecipeCache delFails cache, true⟩

/-- The DELETE /recipes/:id handler (server.ts lines 206-223): a 404
without details when the id is absent, a 500 carrying error and details
when findByIdAndDelete throws, and on success removal of the document,
clearRecipeCache, and a confirmation message. -/
def deleteRecipe (db : RecipeDB) (cache : RedisState)
    (deleteFails delFails : Bool) (errMsg : String) (id : String) : IdOutcome :=
  if deleteFails then
    ⟨500, Body.err ⟨"Failed to delete recipe", some errMsg⟩, db, cache, false⟩
  else
    match List.lookup id db with
    | none => ⟨404, Body.err ⟨"Recipe not found", none⟩, db, cache, false⟩
    | some _ =>
      ⟨200, Body.message "Recipe deleted successfully",
        db.filter (fun e => !(e.1 == id)), clearRecipeCache delFails cache, true⟩

/-- mongoose ObjectId validity, modelled for the string form the route
receives: a 24 character hexadecimal string. -/
def isValidObjectId (s : String) : Bool :=
  s.length == 24 && s.toList.all (fun c =>
    c.isDigit || (97 ≤ c.toNat && c.toNat ≤ 102) || (65 ≤ c.toNat && c.toNat ≤ 70))

/-- The GET /recipes/:id handler (server.ts lines 162-182): a 400 without
details on a malformed id, a 404 without details when absent, a 500
carrying error and details when findById throws, and a 200 with the
document otherwise. -/
def getRecipeById (db : RecipeDB) (findFails : Bool) (errMsg : String)
    (id : String) : Nat × Body :=
  if !(isValidObjectId id) then
    (400, Body.err ⟨"Invalid recipe ID format", none⟩)
  else if findFails then
    (500, Body.err ⟨"Failed to fetch recipe", some errMsg⟩)
  else
    match List.lookup id db with
    | none => (404, Body.err ⟨"Recipe not found", none⟩)
    | some r => (200, Body.recipe r)

/-- A concrete recipe used in counterexamples and witnesses. -/
def applePie : Recipe :=
  ⟨"Apple Pie", [⟨"apple"⟩], ["pan"], "60 min", "easy", ["bake"]⟩

/-- A second concrete recipe used in counterexamples and witnesses. -/
def bananaBread : Recipe :=
  ⟨"Banana Bread", [⟨"banana"⟩], ["loaf pan"], "50 min", "easy", ["mix", "bake"]⟩

/-! ### Shared lemmas -/

/-- The floor-division form of Math.ceil coincides with the rational
ceiling for a positive denominator. -/
theorem mathCeilDiv_eq_ceil (t : Nat) (p : Int) (hp : 0 < p) :
    mathCeilDiv t p = Int.ceil ((t : ℚ) / (p : ℚ)) := by
  have hp0 : (0 : Int) ≤ p := le_of_lt hp
  have hfd : Int.fdiv (-(t : Int)) p = (-(t : Int)) / p := Int.fdiv_eq_ediv _ hp0
  have hnat : ((p.toNat : Nat) : Int) = p := Int.toNat_of_nonneg hp0
  have hq : ((p.toNat : Nat) : ℚ) = (p : ℚ) := by exact_mod_cast congrArg (fun z : Int => (z : ℚ)) hnat
  have hfl : Int.floor (((-(t : Int) : Int) : ℚ) / ((p.toNat : Nat) : ℚ)) =
      (-(t : Int)) / ((p.toNat : Nat) : Int) := Rat.floor_intCast_div_natCast _ _
  have harg : (((-(t : Int) : Int) : ℚ) / ((p.toNat : Nat) : ℚ)) = -((t : ℚ) / (p : ℚ)) := by
    rw [hq]
    push_cast
    ring
  calc mathCeilDiv t p
      = -((-(t : Int)) / p) := by rw [mathCeilDiv, hfd]
    _ = -((-(t : Int)) / ((p.toNat : Nat) : Int)) := by rw [hnat]
    _ = -Int.floor (((-(t : Int) : Int) : ℚ) / ((p.toNat : Nat) : ℚ)) := by rw [hfl]
    _ = -Int.floor (-((t : ℚ) / (p : ℚ))) := by rw [harg]
    _ = Int.ceil ((t : ℚ) / (p : ℚ)) := by rw [Int.floor_neg, neg_neg]

/-! ### Claim theorems -/

/-- C1 (code bug): invalidation evicts nothing. clearRecipeCache issues
DEL with the literal key recipes:*, which Redis treats as an exact key
and which no derived list cache key equals. Concretely: a default list
query against a one-recipe store caches its page; a successful POST of a
second recipe runs clearRecipeCache, yet the old entry survives; the
repeated identical list query is then served from the cache with no
store read and returns the pre-mutation page with totalRecipes 1, while
a fresh store read of the same query yields totalRecipes 2. -/
theorem c1_invalidation_evicts_nothing :
    (postRecipe [applePie]
        (getRecipes [applePie] [] false false false "" none none none none).cache
        false false "" bananaBread).status = 201 ∧
    (postRecipe [applePie]
        (getRecipes [applePie] [] false false false "" none none none none).cache
        false false "" bananaBread).clearCalled = true ∧
    (getRecipes [applePie, bananaBread]
        (postRecipe [applePie]
          (getRecipes [applePie] [] false false false "" none none none none).cache
          false false "" bananaBread).cache
        false false false "" none none none none).storeQueried = false ∧
    (getRecipes [applePie, bananaBread]
        (postRecipe [applePie]
          (getRecipes [applePie] [] false false false "" none none none none).cache
          false false "" bananaBread).cache
        false false false "" none none none none).body =
      (getRecipes [applePie] [] false false false "" none none none none).body ∧
    (getRecipes [applePie] [] false false false "" none none none none).body =
      Body.pageResult (storePage [applePie] none none none none) ∧
    (storePage [applePie] none none none none).totalRecipes = 1 ∧
    (getRecipes [applePie, bananaBread] [] false false false "" none none none none).body =
      Body.pageResult (storePage [applePie, bananaBread] none none none none) ∧
    (storePage [applePie, bananaBread] none none none none).totalRecipes = 2 ∧
    (getRecipes [applePie, bananaBread]
        (postRecipe [applePie]
          (getRecipes [applePie] [] false false false "" none none none none).cache
          false false "" bananaBread).cache
        false false false "" none none none none).body ≠
      (getRecipes [applePie, bananaBread] [] false false false "" none none none none).body := by
  decide

/-- C5: a miss queries the store once, returns the shaped page and
writes it to the cache, and the immediately repeated identical request
is a hit: it returns the identical PageResult content with no store
query and no cache change. -/
theorem c5_cache_population_idempotent
    (store : List Recipe) (cache : RedisState) (msg : String)
    (page psRaw search difficulty : Option String)
    (hmiss : redisGet cache (keyOf page psRaw search difficulty) = none) :
    (getRecipes store cache false false false msg page psRaw search difficulty).storeQueried = true ∧
    (getRecipes store cache false false false msg page psRaw search difficulty).status = 200 ∧
    (getRecipes store cache false false false msg page psRaw search difficulty).body =
      Body.pageResult (storePage store page psRaw search difficulty) ∧
    (getRecipes store
      (getRecipes store cache false false false msg page psRaw search difficulty).cache
      false false false msg page psRaw search difficulty).storeQueried = false ∧
    (getRecipes store
      (getRecipes store cache false false false msg page psRaw search difficulty).cache
      false false false msg page psRaw search difficulty).body =
      (getRecipes store cache false false false msg page psRaw search difficulty).body ∧
    (getRecipes store
      (getRecipes store cache false false false msg page psRaw search difficulty).cache
      false false false msg page psRaw search difficulty).cache =
      (getRecipes store cache false false false msg page psRaw search difficulty).cache := by
  have h1 : getRecipes store cache false false false msg page psRaw search difficulty =
      ⟨200, Body.pageResult (storePage store page psRaw search difficulty),
        redisSet cache (keyOf page psRaw search difficulty)
          (storePage store page psRaw search difficulty), true⟩ := by
    simp [getRecipes, hmiss]
  have h2 : redisGet
      (redisSet cache (keyOf page psRaw search difficulty)
        (storePage store page psRaw search difficulty))
      (keyOf page psRaw search difficulty) =
      some (storePage store page psRaw search difficulty) := by
    simp [redisGet, redisSet, List.lookup]
  rw [h1]
  refine ⟨rfl, rfl, rfl, ?_, ?_, ?_⟩ <;> simp [getRecipes, h2]

/-- C5 witness: the theorem applied to a one-recipe store and the empty
cache. -/
theorem c5_cache_population_idempotent_witness :
    (getRecipes [applePie] [] false false false "" none none none none).storeQueried = true ∧
    (getRecipes [applePie] [] false false false "" none none none none).status = 200 ∧
    (getRecipes [applePie] [] false false false "" none none none none).body =
      Body.pageResult (storePage [applePie] none none none none) ∧
    (getRecipes [applePie]
      (getRecipes [applePie] [] false false false "" none none none none).cache
      false false false "" none none none none).storeQueried = false ∧
    (getRecipes [applePie]
      (getRecipes [applePie] [] false false false "" none none none none).cache
      false false false "" none none none none).body =
      (getRecipes [applePie] [] false false false "" none none none none).body ∧
    (getRecipes [applePie]
      (getRecipes [applePie] [] false false false "" none none none none).cache
      false false false "" none none none none).cache =
      (getRecipes [applePie] [] false false false "" none none none none).cache :=
  c5_cache_population_idempotent [applePie] [] "" none none none none (by decide)

/-- C6: for the page shaped from a store read with a positive normalized
pageSize, the recipe list is bounded by pageSize and totalPages is the
exact ceiling of totalRecipes over pageSize; Math.ceil of 0 over 10 is
0 and of 25 over 10 is 3. -/
theorem c6_pagination_arithmetic
    (store : List Recipe) (page psRaw search difficulty : Option String)
    (hps : 1 ≤ normPageSize psRaw) :
    ((storePage store page psRaw search difficulty).recipes.length : Int) ≤ normPageSize psRaw ∧
    (storePage store page psRaw search difficulty).totalPages =
      Int.ceil (((storePage store page psRaw search difficulty).totalRecipes : ℚ) /
        (normPageSize psRaw : ℚ)) ∧
    mathCeilDiv 0 10 = 0 ∧ mathCeilDiv 25 10 = 3 := by
  refine ⟨?_, ?_, by decide, by decide⟩
  · have hlen : (storePage store page psRaw search difficulty).recipes.length ≤
        (normPageSize psRaw).toNat := by
      simp only [storePage, runAggregate]
      exact List.length_take_le _ _
    calc ((storePage store page psRaw search difficulty).recipes.length : Int)
        ≤ ((normPageSize psRaw).toNat : Int) := by exact_mod_cast hlen
      _ = normPageSize psRaw := Int.toNat_of_nonneg (by omega)
  · have h0 : (0 : Int) < normPageSize psRaw := by omega
    simpa [storePage, runAggregate] using
      mathCeilDiv_eq_ceil
        (store.filter (matchesQuery (search.getD "") (difficulty.getD ""))).length
        (normPageSize psRaw) h0

/-- C6 witness: the theorem applied to a one-recipe store with defaulted
parameters, whose normalized pageSize is 10. -/
theorem c6_pagination_arithmetic_witness :
    ((storePage [applePie] none none none none).recipes.length : Int) ≤ normPageSize none ∧
    (storePage [applePie] none none none none).totalPages =
      Int.ceil (((storePage [applePie] none none none none).totalRecipes : ℚ) /
        (normPageSize none : ℚ)) ∧
    mathCeilDiv 0 10 = 0 ∧ mathCeilDiv 25 10 = 3 :=
  c6_pagination_arithmetic [applePie] none none none none (by decide)

/-- C7: the page shaped on a miss is built from one combined query: its
totalRecipes counts every document matching the filter, ignoring skip
and limit; its recipes are the matching documents sorted ascending by
title, then skipped by (page - 1) times pageSize and limited to
pageSize; the result is sorted by title; and the filter holds exactly
when difficulty is empty or case-insensitively contained in the document
difficulty, and search is case-insensitively contained in the title or
in some ingredient name. -/
theorem c7_store_query_shape
    (store : List Recipe) (page psRaw search difficulty : Option String)
    (k : Int) (hk : numericPage page = some k) :
    (storePage store page psRaw search difficulty).totalRecipes =
      (store.filter (matchesQuery (search.getD "") (difficulty.getD ""))).length ∧
    (storePage store page psRaw search difficulty).recipes =
      ((sortByTitle (store.filter (matchesQuery (search.getD "") (difficulty.getD "")))).drop
        ((k - 1) * normPageSize psRaw).toNat).take (normPageSize psRaw).toNat ∧
    List.Sorted titleLe (storePage store page psRaw search difficulty).recipes ∧
    (∀ r : Recipe, matchesQuery (search.getD "") (difficulty.getD "") r = true ↔
      ((difficulty.getD "" = "" ∨ ciContains r.difficulty (difficulty.getD "") = true) ∧
       (ciContains r.title (search.getD "") = true ∨
        ∃ i ∈ r.ingredients, ciContains i.name (search.getD "") = true))) := by
  have hrec : (storePage store page psRaw search difficulty).recipes =
      ((sortByTitle (store.filter (matchesQuery (search.getD "") (difficulty.getD "")))).drop
        ((k - 1) * normPageSize psRaw).toNat).take (normPageSize psRaw).toNat := by
    simp [storePage, runAggregate, skipOf, hk]
  refine ⟨by simp [storePage, runAggregate], hrec, ?_, ?_⟩
  · rw [hrec]
    have hs : List.Sorted titleLe
        (sortByTitle (store.filter (matchesQuery (search.getD "") (difficulty.getD "")))) :=
      List.sorted_insertionSort titleLe _
    exact List.Pairwise.sublist
      ((List.take_sublist _ _).trans (List.drop_sublist _ _)) hs
  · intro r
    simp [matchesQuery, Bool.and_eq_true, Bool.or_eq_true, List.any_eq_true, beq_iff_eq]

/-- C7 witness: the theorem applied to a two-recipe store with a search
term and page 2. -/
theorem c7_store_query_shape_witness :
    (storePage [applePie, bananaBread] (some "2") (some "1") (some "an") none).totalRecipes =
      ([applePie, bananaBread].filter
        (matchesQuery ((some "an").getD "") ((none : Option String).getD ""))).length ∧
    (storePage [applePie, bananaBread] (some "2") (some "1") (some "an") none).recipes =
      ((sortByTitle ([applePie, bananaBread].filter
        (matchesQuery ((some "an").getD "") ((none : Option String).getD "")))).drop
        (((2 : Int) - 1) * normPageSize (some "1")).toNat).take (normPageSize (some "1")).toNat ∧
    List.Sorted titleLe
      (storePage [applePie, bananaBread] (some "2") (some "1") (some "an") none).recipes ∧
    (∀ r : Recipe,
      matchesQuery ((some "an").getD "") ((none : Option String).getD "") r = true ↔
      (((none : Option String).getD "" = "" ∨
        ciContains r.difficulty ((none : Option String).getD "") = true) ∧
       (ciContains r.title ((some "an").getD "") = true ∨
        ∃ i ∈ r.ingredients, ciContains i.name ((some "an").getD "") = true))) :=
  c7_store_query_shape [applePie, bananaBread] (some "2") (some "1") (some "an") none 2 (by decide)

/-- C8 counterexample: the 400 response of GET by id for a malformed
identifier carries error alone; its details field is absent, refuting
the claim that every error response carries both fields. -/
theorem c8_error_shape_counterexample :
    (getRecipeById [] false "boom" "zzz").1 = 400 ∧
    (getRecipeById [] false "boom" "zzz").2 =
      Body.err ⟨"Invalid recipe ID format", none⟩ := by decide

/-- C8 amended: every exception-path error response (each 500, and the
400 responses of the POST and PUT catch blocks) carries both error and
details, while the invalid-identifier 400 and every 404 carry error
alone, with no details field. -/
theorem c8_error_shape_amended
    (db : RecipeDB) (store : List Recipe) (cache : RedisState)
    (f delF : Bool) (msg : String) (page psRaw search difficulty : Option String)
    (idBad idAbsent : String) (body : Recipe)
    (hbad : isValidObjectId idBad = false)
    (hvalid : isValidObjectId idAbsent = true)
    (habsent : List.lookup idAbsent db = none) :
    getRecipeById db f msg idBad = (400, Body.err ⟨"Invalid recipe ID format", none⟩) ∧
    getRecipeById db false msg idAbsent = (404, Body.err ⟨"Recipe not found", none⟩) ∧
    getRecipeById db true msg idAbsent = (500, Body.err ⟨"Failed to fetch recipe", some msg⟩) ∧
    ((postRecipe store cache true delF msg body).status = 400 ∧
     (postRecipe store cache true delF msg body).body =
       Body.err ⟨"Failed to create recipe", some msg⟩) ∧
    ((putRecipe db cache true delF msg idAbsent body).status = 400 ∧
     (putRecipe db cache true delF msg idAbsent body).body =
       Body.err ⟨"Failed to update recipe", some msg⟩) ∧
    ((putRecipe db cache false delF msg idAbsent body).status = 404 ∧
     (putRecipe db cache false delF msg idAbsent body).body =
       Body.err ⟨"Recipe not found", none⟩) ∧
    ((deleteRecipe db cache true delF msg idAbsent).status = 500 ∧
     (deleteRecipe db cache true delF msg idAbsent).body =
       Body.err ⟨"Failed to delete recipe", some msg⟩) ∧
    ((deleteRecipe db cache false delF msg idAbsent).status = 404 ∧
     (deleteRecipe db cache false delF msg idAbsent).body =
       Body.err ⟨"Recipe not found", none⟩) ∧
    ((getRecipes store cache true f true msg page psRaw search difficulty).status = 500 ∧
     (getRecipes store cache true f true msg page psRaw search difficulty).body =
       Body.err ⟨"Failed to fetch recipes", some msg⟩) := by
  refine ⟨?_, ?_, ?_, ?_, ?_, ?_, ?_, ?_, ?_⟩ <;>
    simp [getRecipeById, postRecipe, putRecipe, deleteRecipe, getRecipes,
      hbad, hvalid, habsent]

/-- C8 witness: the amended theorem applied to the empty stores, the
malformed id zzz, and an absent well-formed 24 character hex id. -/
theorem c8_error_shape_amended_witness :
    getRecipeById [] false "m" "zzz" = (400, Body.err ⟨"Invalid recipe ID format", none⟩) ∧
    getRecipeById [] false "m" "0123456789abcdef01234567" =
      (404, Body.err ⟨"Recipe not found", none⟩) ∧
    getRecipeById [] true "m" "0123456789abcdef01234567" =
      (500, Body.err ⟨"Failed to fetch recipe", some "m"⟩) ∧
    ((postRecipe [] [] true false "m" applePie).status = 400 ∧
     (postRecipe [] [] true false "m" applePie).body =
       Body.err ⟨"Failed to create recipe", some "m"⟩) ∧
    ((putRecipe [] [] true false "m" "0123456789abcdef01234567" applePie).status = 400 ∧
     (putRecipe [] [] true false "m" "0123456789abcdef01234567" applePie).body =
       Body.err ⟨"Failed to update recipe", some "m"⟩) ∧
    ((putRecipe [] [] false false "m" "0123456789abcdef01234567" applePie).status = 404 ∧
     (putRecipe [] [] false false "m" "0123456789abcdef01234567" applePie).body =
       Body.err ⟨"Recipe not found", none⟩) ∧
    ((deleteRecipe [] [] true false "m" "0123456789abcdef01234567").status = 500 ∧
     (deleteRecipe [] [] true false "m" "0123456789abcdef01234567").body =
       Body.err ⟨"Failed to delete recipe", some "m"⟩) ∧
    ((deleteRecipe [] [] false false "m" "0123456789abcdef01234567").status = 404 ∧
     (deleteRecipe [] [] false false "m" "0123456789abcdef01234567").body =
       Body.err ⟨"Recipe not found", none⟩) ∧
    ((getRecipes [] [] true false true "m" none none none none).status = 500 ∧
     (getRecipes [] [] true false true "m" none none none none).body =
       Body.err ⟨"Failed to fetch recipes", some "m"⟩) :=
  c8_error_shape_amended [] [] [] false false "m" none none none none
    "zzz" "0123456789abcdef01234567" applePie (by decide) (by decide) (by decide)

/-- C9: on the not-found path of PUT and DELETE by id nothing changes:
the handler answers 404, the store and cache are untouched and
clearRecipeCache is not invoked; and for these handlers clearRecipeCache
runs only on a 200 outcome, hence only after a successful mutation. -/
theorem c9_not_found_performs_no_eviction
    (db : RecipeDB) (cache : RedisState) (delFails : Bool) (msg : String)
    (id : String) (body : Recipe)
    (habsent : List.lookup id db = none) :
    ((putRecipe db cache false delFails msg id body).status = 404 ∧
     (putRecipe db cache false delFails msg id body).db = db ∧
     (putRecipe db cache false delFails msg id body).cache = cache ∧
     (putRecipe db cache false delFails msg id body).clearCalled = false) ∧
    ((deleteRecipe db cache false delFails msg id).status = 404 ∧
     (deleteRecipe db cache false delFails msg id).db = db ∧
     (deleteRecipe db cache false delFails msg id).cache = cache ∧
     (deleteRecipe db cache false delFails msg id).clearCalled = false) ∧
    (∀ (uf df : Bool) (m i : String) (b : Recipe),
      ((putRecipe db cache uf df m i b).clearCalled = true →
        (putRecipe db cache uf df m i b).status = 200) ∧
      ((deleteRecipe db cache uf df m i).clearCalled = true →
        (deleteRecipe db cache uf df m i).status = 200)) := by
  refine ⟨by simp [putRecipe, habsent], by simp [deleteRecipe, habsent], ?_⟩
  intro uf df m i b
  constructor
  · intro h
    cases uf with
    | true => simp [putRecipe] at h
    | false =>
      cases hl : List.lookup i db with
      | none => simp [putRecipe, hl] at h
      | some r => simp [putRecipe, hl]
  · intro h
    cases uf with
    | true => simp [deleteRecipe] at h
    | false =>
      cases hl : List.lookup i db with
      | none => simp [deleteRecipe, hl] at h
      | some r => simp [deleteRecipe, hl]

/-- C9 witness: the theorem applied to the empty db, where every id is
absent. -/
theorem c9_not_found_performs_no_eviction_witness :
    ((putRecipe [] [] false false "m" "x" applePie).status = 404 ∧
     (putRecipe [] [] false false "m" "x" applePie).db = [] ∧
     (putRecipe [] [] false false "m" "x" applePie).cache = [] ∧
     (putRecipe [] [] false false "m" "x" applePie).clearCalled = false) ∧
    ((deleteRecipe [] [] false false "m" "x").status = 404 ∧
     (deleteRecipe [] [] false false "m" "x").db = [] ∧
     (deleteRecipe [] [] false false "m" "x").cache = [] ∧
     (deleteRecipe [] [] false false "m" "x").clearCalled = false) ∧
    (∀ (uf df : Bool) (m i : String) (b : Recipe),
      ((putRecipe [] [] uf df m i b).clearCalled = true →
        (putRecipe [] [] uf df m i b).status = 200) ∧
      ((deleteRecipe [] [] uf df m i).clearCalled = true →
        (deleteRecipe [] [] uf df m i).status = 200)) :=
  c9_not_found_performs_no_eviction [] [] false "m" "x" applePie (by decide)

/-- C10: currentPage echoes the caller-supplied page value verbatim: a
supplied page query string s appears as the string s, unparsed and
unclamped, in the shaped page; the page value is the number 1 exactly
when the parameter is absent; and the pagination skip is computed
separately from Number(page) as (Number(page) - 1) times pageSize. -/
theorem c10_current_page_raw_echo
    (store : List Recipe) (psRaw search difficulty : Option String)
    (s : String) (k : Int) (hk : jsNumber s = some k) :
    (storePage store (some s) psRaw search difficulty).currentPage = JsonPage.str s ∧
    (storePage store none psRaw search difficulty).currentPage = JsonPage.num 1 ∧
    (∀ page : Option String, pageVal page = JsonPage.num 1 ↔ page = none) ∧
    skipOf (some s) (normPageSize psRaw) = (k - 1) * normPageSize psRaw ∧
    (storePage store (some s) psRaw search difficulty).recipes =
      (runAggregate store (search.getD "") (difficulty.getD "")
        ((k - 1) * normPageSize psRaw) (normPageSize psRaw)).recipes := by
  refine ⟨rfl, rfl, ?_, ?_, ?_⟩
  · intro page
    cases page <;> simp [pageVal]
  · simp [skipOf, numericPage, hk]
  · simp [storePage, skipOf, numericPage, hk]

/-- C10 witness: the theorem applied to the page string 0, which is
echoed as the raw string rather than parsed or clamped. -/
theorem c10_current_page_raw_echo_witness :
    (storePage [applePie] (some "0") none none none).currentPage = JsonPage.str "0" ∧
    (storePage [applePie] none none none none).currentPage = JsonPage.num 1 ∧
    (∀ page : Option String, pageVal page = JsonPage.num 1 ↔ page = none) ∧
    skipOf (some "0") (normPageSize none) = ((0 : Int) - 1) * normPageSize none ∧
    (storePage [applePie] (some "0") none none none).recipes =
      (runAggregate [applePie] ((none : Option String).getD "")
        ((none : Option String).getD "")
        (((0 : Int) - 1) * normPageSize none) (normPageSize none)).recipes :=
  c10_current_page_raw_echo [applePie] none none none "0" 0 (by decide)

/-- C2: cache failures never fail a list request: when redis.get throws
the handler falls through to the store and returns the store-sourced
page with status 200; when redis.set throws on a miss the store-sourced
page is still returned with status 200 and the cache is untouched;
whereas a store failure surfaces as a 500 whose body carries error and
details. -/
theorem c2_cache_failure_soft_store_failure_hard
    (store : List Recipe) (cache : RedisState) (w : Bool) (msg : String)
    (page psRaw search difficulty : Option String)
    (hmiss : redisGet cache (keyOf page psRaw search difficulty) = none) :
    ((getRecipes store cache true w false msg page psRaw search difficulty).status = 200 ∧
     (getRecipes store cache true w false msg page psRaw search difficulty).body =
       Body.pageResult (storePage store page psRaw search difficulty)) ∧
    ((getRecipes store cache false true false msg page psRaw search difficulty).status = 200 ∧
     (getRecipes store cache false true false msg page psRaw search difficulty).body =
       Body.pageResult (storePage store page psRaw search difficulty) ∧
     (getRecipes store cache false true false msg page psRaw search difficulty).cache = cache) ∧
    ((getRecipes store cache true w true msg page psRaw search difficulty).status = 500 ∧
     (getRecipes store cache true w true msg page psRaw search difficulty).body =
       Body.err ⟨"Failed to fetch recipes", some msg⟩) := by
  refine ⟨⟨?_, ?_⟩, ⟨?_, ?_, ?_⟩, ?_, ?_⟩ <;> simp [getRecipes, hmiss]

/-- C2 witness: the theorem applied to the empty store and empty cache
with all parameters defaulted. -/
theorem c2_cache_failure_soft_store_failure_hard_witness :
    ((getRecipes [] [] true false false "" none none none none).status = 200 ∧
     (getRecipes [] [] true false false "" none none none none).body =
       Body.pageResult (storePage [] none none none none)) ∧
    ((getRecipes [] [] false true false "" none none none none).status = 200 ∧
     (getRecipes [] [] false true false "" none none none none).body =
       Body.pageResult (storePage [] none none none none) ∧
     (getRecipes [] [] false true false "" none none none none).cache = []) ∧
    ((getRecipes [] [] true false true "" none none none none).status = 500 ∧
     (getRecipes [] [] true false true "" none none none none).body =
       Body.err ⟨"Failed to fetch recipes", some ""⟩) :=
  c2_cache_failure_soft_store_failure_hard [] [] false "" none none none none (by decide)

/-- C3: the cache key is the template string from recipes page, pageSize,
search and difficulty, built from the raw page value and the clamped
pageSize, so two requests agreeing on those normalized components derive
the identical key; in particular pageSize 150 and pageSize 100 both
normalize to 100 and therefore share the key. -/
theorem c3_cache_key_deterministic
    (page search difficulty : Option String) (ps1 ps2 : Option String)
    (h : normPageSize ps1 = normPageSize ps2) :
    keyOf page ps1 search difficulty = keyOf page ps2 search difficulty ∧
    keyOf page ps1 search difficulty =
      "recipes:page=" ++ (pageVal page).render ++ "&pageSize=" ++
        toString (normPageSize ps1) ++ "&search=" ++ search.getD "" ++
        "&difficulty=" ++ difficulty.getD "" ∧
    normPageSize (some "150") = normPageSize (some "100") := by
  refine ⟨by simp [keyOf, cacheKey, h], rfl, by decide⟩

/-- C3 witness: the theorem applied at pageSize 150 versus 100, whose
clamped values coincide. -/
theorem c3_cache_key_deterministic_witness :
    keyOf none (some "150") none none = keyOf none (some "100") none none ∧
    keyOf none (some "150") none none =
      "recipes:page=" ++ (pageVal none).render ++ "&pageSize=" ++
        toString (normPageSize (some "150")) ++ "&search=" ++ (none : Option String).getD "" ++
        "&difficulty=" ++ (none : Option String).getD "" ∧
    normPageSize (some "150") = normPageSize (some "100") :=
  c3_cache_key_deterministic none none none (some "150") (some "100") (by decide)

/-- C4 counterexample: a supplied pageSize of -5 is served as -5, which
is an integer outside [1,100]: the code caps pageSize only from above,
so the claimed clamping into [1,100] fails. -/
theorem c4_pageSize_clamp_counterexample :
    normPageSize (some "-5") = -5 ∧
    ¬ (1 ≤ normPageSize (some "-5") ∧ normPageSize (some "-5") ≤ 100) := by decide

/-- C4 amended: the normalized pageSize is Math.min of Number(pageSize)
with 100 after defaulting falsy conversions to 10: an integral supplied
value n normalizes to 10 when n is 0 and to min n 100 otherwise, with no
lower clamp, so a negative value passes through uncapped; a missing or
non-numeric pageSize normalizes to 10; in particular pageSize 500 is
served as 100 and pageSize 0 as 10. -/
theorem c4_pageSize_clamp_amended (s : String) (n : Int) (h : jsNumber s = some n) :
    normPageSize (some s) = (if n = 0 then 10 else min n 100) ∧
    (∀ t : String, jsNumber t = none → normPageSize (some t) = 10) ∧
    normPageSize (some "500") = 100 ∧ normPageSize (some "0") = 10 ∧
    normPageSize none = 10 := by
  refine ⟨?_, ?_, by decide, by decide, by decide⟩
  · by_cases hn : n = 0 <;> simp [normPageSize, h, hn]
  · intro t ht
    simp [normPageSize, ht]

/-- C4 witness: the amended theorem applied to the integral pageSize 7. -/
theorem c4_pageSize_clamp_amended_witness :
    normPageSize (some "7") = (if (7 : Int) = 0 then 10 else min 7 100) ∧
    (∀ t : String, jsNumber t = none → normPageSize (some t) = 10) ∧
    normPageSize (some "500") = 100 ∧ normPageSize (some "0") = 10 ∧
    normPageSize none = 10 :=
  c4_pageSize_clamp_amended "7" 7 (by decide)

end GroceryServer
